import Mathlib

/-!
Shallow embedding of `src/component/styled.tsx` from the
`styled-tw-component` repository.

The source file contains two full implementations of the same utility,
concatenated:

* implementation 1: `createStyled` taking a single config object
  (source lines 143–181) together with the `Styled` record of lines
  217–244 (`Styled.create`, `Styled.base` and its per-tag entries);
* implementation 2: `createStyled` taking `(baseClass, config)`
  (source lines 278–307) together with the `Styled` object of lines
  343–365 (per-tag entries and `Styled.create`).

JavaScript runtime values that can flow through the class-composition
logic are modelled by `Value`: strings, `undefined`, and opaque object /
function values (identified by a numeric id; their internal structure is
never inspected by the embedded code paths).  React prop objects are
modelled as association lists from prop names to values; lookup takes the
first matching key, as a JS object has no duplicate keys.
-/

namespace StyledTW

/-- A JavaScript runtime value as far as the styling code observes it:
a string, `undefined`, an opaque object, or an opaque function value. -/
inductive Value where
  | vstr (s : String)
  | vundef
  | vobj (id : Nat)
  | vfun (id : Nat)
  deriving DecidableEq, Repr

/-- A React props object: an association list from prop names to values. -/
abbrev PropBag := List (String × Value)

/-- JavaScript truthiness for the values of `Value`: the empty string and
`undefined` are falsy; every other string and every object or function
value is truthy. -/
def truthy : Value → Bool
  | .vstr s => s ≠ ""
  | .vundef => false
  | .vobj _ => true
  | .vfun _ => true

/-- JavaScript `a || b`: `a` when truthy, otherwise `b`. -/
def jsOr (a b : Value) : Value :=
  if truthy a then a else b

/-- Property read `bag[key]` on a props object: the first entry with the
key, `undefined` when absent. -/
def getProp : PropBag → String → Value
  | [], _ => .vundef
  | (k, v) :: rest, key => if k = key then v else getProp rest key

/-- The prop names destructured away by both render functions
(`{ className, children, variant, as, ...props }`, source lines 148 and
283). -/
def reservedKeys : List String := ["className", "children", "variant", "as"]

/-- The rest-spread `...props` of the destructuring: every entry whose key
is not one of the four reserved names, order preserved. -/
def restProps : PropBag → PropBag
  | [] => []
  | (k, v) :: rest =>
    if k ∈ reservedKeys then restProps rest else (k, v) :: restProps rest

/-- JavaScript `ToPropertyKey` for the values a `variant?: string` prop can
hold under its declared type: a string is its own key and `undefined`
coerces to the key `"undefined"` (so `variants?.[variant!]` with the prop
omitted reads the `"undefined"` entry).  The opaque object/function
branches reuse the `"undefined"` key; they never occur for a `variant`
prop in any statement below, which restrict that prop to a string or
`undefined`. -/
def toPropKey : Value → String
  | .vstr s => s
  | _ => "undefined"

/-- Lookup in a `Record<string, string>` (a `variants` map): first entry
with the key, `undefined` (`none`) when absent. -/
def recordLookup : List (String × String) → String → Option String
  | [], _ => none
  | (k, v) :: rest, key => if k = key then some v else recordLookup rest key

/-- Contribution of one argument to `clsx`: a non-empty string is kept, the
empty string and `undefined` are dropped.  (The real `clsx` additionally
walks arrays and the keys of plain objects; a function value contributes
nothing, exactly as here.  Object arguments, whose keys this embedding
keeps opaque, never reach `clsx` at the embedded call sites under the
configuration contract, and every statement below that touches an
object-valued argument position carries a hypothesis excluding it.) -/
def clsxArg : Value → Option String
  | .vstr s => if s = "" then none else some s
  | _ => none

/-- The external class-joining utility `clsx`, applied to a fixed argument
list: the surviving fragments joined by single spaces. -/
def clsx (args : List Value) : String :=
  String.intercalate " " (args.filterMap clsxArg)

/-- The `baseClass` configuration field: either a plain (non-function)
value — a string under the declared type `string | ((props: P) => string)`,
with `val .vundef` for an absent field — or a function value, which the
render functions call with the rest props.  A function value is always
represented by the `func` constructor, since the code detects functions
with `typeof` and calls them. -/
inductive BaseSource where
  | val (v : Value)
  | func (f : PropBag → Value)

/-- Per-render resolution of `baseClass` (source lines 149–152 and
284–285): a function is invoked with the rest props, any other value is
used as is. -/
def resolveBase (b : BaseSource) (props : PropBag) : Value :=
  match b with
  | .func f => f props
  | .val v => v

/-- String coercion used when reading a fragment out of a `Value`: the
string itself, and `""` for every non-string value. -/
def strOf : Value → String
  | .vstr s => s
  | _ => ""

/-- Decides that a value is a string or `undefined` — the values the
declared prop types `className?: string` / `variant?: string` admit, and
the values `baseClass` resolves to under its declared type. -/
def isStrOrUndef : Value → Bool
  | .vstr _ => true
  | .vundef => true
  | _ => false

/-! ### Implementation 1 (source lines 143–181) -/

/-- Configuration object of implementation 1
(`StyledComponentConfig`, source lines 44–65).  Absent optional fields
are `val .vundef` / `.vundef` / `none`. -/
structure Config1 where
  baseClass : BaseSource
  asField : Value
  variants : Option (List (String × String))
  styleFn : Option (PropBag → String)

/-- The resolved `baseClass` local of implementation 1 (source lines
149–152): `typeof config.baseClass === "function" ? config.baseClass(props)
: config.baseClass`. -/
def baseClassResolved1 (config : Config1) (bag : PropBag) : Value :=
  resolveBase config.baseClass (restProps bag)

/-- The string passed to `clsx` in base position by implementation 1
(source line 159): `typeof baseClass === "string" ? baseClass : ""` — the
string itself when the resolved base is one, `""` otherwise, which is
exactly the coercion `strOf`. -/
def baseFragment1 (config : Config1) (bag : PropBag) : String :=
  strOf (baseClassResolved1 config bag)

/-- The target-choice expression of implementation 1 (source lines
165–168) as a function of the resolved base and the two `as` values: the
resolved base itself when it is a function or object value, otherwise
`as || config.as || "div"`. -/
def componentOf1 (baseV asCall asCfg : Value) : Value :=
  match baseV with
  | .vfun i => .vfun i
  | .vobj i => .vobj i
  | _ => jsOr (jsOr asCall asCfg) (.vstr "div")

/-- The `dynamicClass` local of implementation 1 (source lines 154–156):
`config.styleFn ? config.styleFn(props) : ""`. -/
def dynamicClass1 (config : Config1) (bag : PropBag) : String :=
  match config.styleFn with
  | some f => f (restProps bag)
  | none => ""

/-- The `variantClass` local of implementation 1 (source line 157):
`config.variants?.[variant!] || ""`.  With the prop omitted the lookup key
is `"undefined"` (see `toPropKey`); the `|| ""` turns a missing entry and
an empty-string entry into `""`. -/
def variantClass1 (variants : Option (List (String × String)))
    (variantV : Value) : String :=
  match variants with
  | none => ""
  | some m =>
    match recordLookup m (toPropKey variantV) with
    | some s => if s = "" then "" else s
    | none => ""

/-- The `combinedClassName` local of implementation 1 (source lines
158–163): `clsx(stringGuardedBase, dynamicClass, variantClass,
className)`. -/
def composedClass1 (config : Config1) (bag : PropBag) : String :=
  clsx [ .vstr (baseFragment1 config bag),
         .vstr (dynamicClass1 config bag),
         .vstr (variantClass1 config.variants (getProp bag "variant")),
         getProp bag "className" ]

/-- The `Component` local of implementation 1 (source lines 165–168). -/
def target1 (config : Config1) (bag : PropBag) : Value :=
  componentOf1 (baseClassResolved1 config bag) (getProp bag "as") config.asField

/-- The observable result of one render: the instantiated target, the
props object handed to it (`{ className: combinedClassName, ...props }`,
the framework-level `ref` slot being outside this model), and the children
argument. -/
structure Rendered where
  target : Value
  targetProps : PropBag
  childrenArg : Value
  deriving DecidableEq, Repr

/-- One render of the component of implementation 1 (source lines
147–179). -/
def render1 (config : Config1) (bag : PropBag) : Rendered :=
  { target := target1 config bag
    targetProps := ("className", .vstr (composedClass1 config bag)) :: restProps bag
    childrenArg := getProp bag "children" }

/-! ### Implementation 2 (source lines 278–307) -/

/-- Configuration object of implementation 2 (source lines 268–273) minus
the `baseClass`, which is a separate first argument there. -/
structure Config2 where
  asField : Value
  variants : Option (List (String × String))
  styleFn : Option (PropBag → String)

/-- The `variantClass` local of implementation 2 (source lines 288–289):
`variant && config.variants ? config.variants[variant] : ""` — the empty
string when the `variant` prop is falsy or no `variants` map is
configured, otherwise the looked-up entry, which is `undefined` for an
unknown key. -/
def variantClass2 (variants : Option (List (String × String)))
    (variantV : Value) : Value :=
  if truthy variantV then
    match variants with
    | some m =>
      match recordLookup m (toPropKey variantV) with
      | some s => .vstr s
      | none => .vundef
    | none => .vstr ""
  else .vstr ""

/-- The `dynamicClass` local of implementation 2 (source line 287). -/
def dynamicClass2 (config : Config2) (bag : PropBag) : String :=
  match config.styleFn with
  | some f => f (restProps bag)
  | none => ""

/-- The `combinedClassName` local of implementation 2 (source lines
291–296): `clsx(baseClassValue, dynamicClass, variantClass, className)` —
the resolved base value is passed to `clsx` unguarded. -/
def composedClass2 (base : BaseSource) (config : Config2) (bag : PropBag) : String :=
  clsx [ resolveBase base (restProps bag),
         .vstr (dynamicClass2 config bag),
         variantClass2 config.variants (getProp bag "variant"),
         getProp bag "className" ]

/-- The `Component` local of implementation 2 (source line 298):
`as || config.as || "div"`. -/
def target2 (config : Config2) (bag : PropBag) : Value :=
  jsOr (jsOr (getProp bag "as") config.asField) (.vstr "div")

/-- One render of the component of implementation 2 (source lines
282–306). -/
def render2 (base : BaseSource) (config : Config2) (bag : PropBag) : Rendered :=
  { target := target2 config bag
    targetProps := ("className", .vstr (composedClass2 base config bag)) :: restProps bag
    childrenArg := getProp bag "children" }

/-! ### Tag table and entry points (source lines 186–244 and 312–365) -/

/-- The fixed tag enumeration `htmlTags` (source lines 186–215 and
312–341). -/
def htmlTags : List String :=
  ["div", "span", "button", "a", "p", "h1", "h2", "h3", "h4", "h5", "h6",
   "ul", "ol", "li", "input", "textarea", "select", "label", "form",
   "header", "footer", "nav", "section", "article", "aside", "main",
   "figure", "figcaption"]

/-- An implementation-1 per-tag constructor (`Styled.base`'s tag entries,
source lines 233–242): `(baseClass) => createStyled({ baseClass, as: tag })`
with no `variants` and no `styleFn`. -/
def perTag1 (tag : String) (base : BaseSource) : PropBag → Rendered :=
  render1 ⟨base, .vstr tag, none, none⟩

/-- The implementation-1 generic entry point (`Styled.create =
createStyled`, source line 218). -/
def create1 (config : Config1) : PropBag → Rendered :=
  render1 config

/-- An implementation-2 per-tag constructor (source lines 352–358):
`(baseClass) => createStyled(baseClass, { as: tag })`. -/
def perTag2 (tag : String) (base : BaseSource) : PropBag → Rendered :=
  render2 base ⟨.vstr tag, none, none⟩

/-- The implementation-2 generic entry point (`Styled.create`, source
lines 359–364): `(baseClass, config = {}) => createStyled(baseClass,
config)`. -/
def create2 (base : BaseSource) (config : Config2) : PropBag → Rendered :=
  render2 base config

/-- Calling an implementation-1 per-tag constructor with a second (config)
argument, as the repository README does (`Styled.span("text-base",
{ variants: ... })`): JavaScript ignores arguments beyond a function's
parameter list and the per-tag lambda binds only `baseClass`, so the
config argument is discarded. -/
def perTag1WithConfig (tag : String) (base : BaseSource) (_config : Config2) :
    PropBag → Rendered :=
  perTag1 tag base

/-- Calling an implementation-2 per-tag constructor with a second (config)
argument: the config argument is discarded for the same reason. -/
def perTag2WithConfig (tag : String) (base : BaseSource) (_config : Config2) :
    PropBag → Rendered :=
  perTag2 tag base

/-- Reads the class string handed to the instantiated target. -/
def composedOf (r : Rendered) : String :=
  strOf (getProp r.targetProps "className")

/-! ### Render evaluation as a step relation

`Render1Rel` / `Render2Rel` spell out one render invocation of each
implementation as an explicit sequence of evaluation steps (one premise
per `const` binding of the source), relating a configuration and a props
object to the produced instantiation.  They are used to state that
rendering is deterministic: the relation admits one result per input.
The relation mentions no state besides its inputs — the embedding of a
render closes over nothing mutable, matching the source, whose render
body reads only `config` and the call's props. -/

inductive Render1Rel (config : Config1) (bag : PropBag) : Rendered → Prop where
  | steps (props : PropBag) (baseV : Value) (dyn varc comb : String) (tgt : Value)
      (hprops : props = restProps bag)
      (hbase : baseV = resolveBase config.baseClass props)
      (hdyn : dyn = (match config.styleFn with
                     | some f => f props
                     | none => ""))
      (hvarc : varc = variantClass1 config.variants (getProp bag "variant"))
      (hcomb : comb = clsx [ .vstr (strOf baseV),
                             .vstr dyn, .vstr varc, getProp bag "className" ])
      (htgt : tgt = componentOf1 baseV (getProp bag "as") config.asField) :
      Render1Rel config bag
        ⟨tgt, ("className", .vstr comb) :: props, getProp bag "children"⟩

inductive Render2Rel (base : BaseSource) (config : Config2) (bag : PropBag) :
    Rendered → Prop where
  | steps (props : PropBag) (baseV : Value) (dyn : String) (varc : Value)
      (comb : String) (tgt : Value)
      (hprops : props = restProps bag)
      (hbase : baseV = resolveBase base props)
      (hdyn : dyn = (match config.styleFn with
                     | some f => f props
                     | none => ""))
      (hvarc : varc = variantClass2 config.variants (getProp bag "variant"))
      (hcomb : comb = clsx [ baseV, .vstr dyn, varc, getProp bag "className" ])
      (htgt : tgt = jsOr (jsOr (getProp bag "as") config.asField) (.vstr "div")) :
      Render2Rel base config bag
        ⟨tgt, ("className", .vstr comb) :: props, getProp bag "children"⟩

/-- The step relation of implementation 1 does relate every input to its
render. -/
theorem render1Rel_total (config : Config1) (bag : PropBag) :
    Render1Rel config bag (render1 config bag) :=
  Render1Rel.steps _ _ _ _ _ _ rfl rfl rfl rfl rfl rfl

/-- The step relation of implementation 2 does relate every input to its
render. -/
theorem render2Rel_total (base : BaseSource) (config : Config2) (bag : PropBag) :
    Render2Rel base config bag (render2 base config bag) :=
  Render2Rel.steps _ _ _ _ _ _ rfl rfl rfl rfl rfl rfl

/-! ### Spec-side definitions

These follow the wording of the specification, to be compared with the
definitions above, which are translated from the source. -/

/-- Spec-side conditional join ("falsy/empty fragments are dropped" and the
survivors are "space-separated" in the listed order). -/
def condJoin (frags : List String) : String :=
  String.intercalate " " (frags.filter (fun s => s != ""))

/-- Spec-side target-resolution contract: the chosen target is the
call-site `as` when truthy, else the configured `as` when truthy, else the
tag `"div"` — exactly one of the three, never merged. -/
def targetPrecedence (asCall asCfg chosen : Value) : Prop :=
  (truthy asCall = true ∧ chosen = asCall)
  ∨ (truthy asCall = false ∧ truthy asCfg = true ∧ chosen = asCfg)
  ∨ (truthy asCall = false ∧ truthy asCfg = false ∧ chosen = .vstr "div")

/-! ### Helper lemmas -/

theorem clsxArg_eq_strOf (v : Value) :
    clsxArg v = if strOf v = "" then none else some (strOf v) := by
  cases v <;> simp [clsxArg, strOf]

theorem filterMap_clsxArg (args : List Value) :
    args.filterMap clsxArg = (args.map strOf).filter (fun s => s != "") := by
  induction args with
  | nil => rfl
  | cons v t ih =>
    simp only [List.filterMap_cons, List.map_cons, List.filter_cons, clsxArg_eq_strOf]
    by_cases h : strOf v = "" <;> simp [h, ih]

/-- `clsx` on an argument list agrees with the spec-side conditional join
of the string coercions of the arguments. -/
theorem clsx_eq_condJoin (args : List Value) :
    clsx args = condJoin (args.map strOf) := by
  unfold clsx condJoin
  rw [filterMap_clsxArg]

theorem getProp_cons_ne (k key : String) (v : Value) (bag : PropBag)
    (h : k ≠ key) : getProp ((k, v) :: bag) key = getProp bag key := by
  simp [getProp, h]

theorem getProp_restProps (bag : PropBag) (k : String)
    (h : k ∉ reservedKeys) : getProp (restProps bag) k = getProp bag k := by
  induction bag with
  | nil => rfl
  | cons e t ih =>
    obtain ⟨k1, v1⟩ := e
    by_cases hr : k1 ∈ reservedKeys
    · have hne : k1 ≠ k := fun he => h (he ▸ hr)
      simp [restProps, hr, getProp, hne, ih]
    · by_cases he : k1 = k
      · subst he
        simp [restProps, hr, getProp]
      · simp [restProps, hr, getProp, he, ih]

theorem getProp_restProps_reserved (bag : PropBag) (k : String)
    (h : k ∈ reservedKeys) : getProp (restProps bag) k = .vundef := by
  induction bag with
  | nil => rfl
  | cons e t ih =>
    obtain ⟨k1, v1⟩ := e
    by_cases hr : k1 ∈ reservedKeys
    · simp [restProps, hr, ih]
    · have hne : k1 ≠ k := fun he => hr (he ▸ h)
      simp [restProps, hr, getProp, hne, ih]

theorem mem_restProps (bag : PropBag) (kv : String × Value) :
    kv ∈ restProps bag ↔ kv ∈ bag ∧ kv.1 ∉ reservedKeys := by
  induction bag with
  | nil => simp [restProps]
  | cons e t ih =>
    obtain ⟨k1, v1⟩ := e
    by_cases hr : k1 ∈ reservedKeys
    · simp only [restProps, hr, if_pos, ih, List.mem_cons]
      constructor
      · exact fun ⟨hm, hk⟩ => ⟨Or.inr hm, hk⟩
      · rintro ⟨hm | hm, hk⟩
        · exact absurd (hm ▸ hr : kv.1 ∈ reservedKeys) hk
        · exact ⟨hm, hk⟩
    · simp only [restProps, hr, if_neg, not_false_iff, List.mem_cons, ih]
      constructor
      · rintro (hm | ⟨hm, hk⟩)
        · exact ⟨Or.inl hm, hm ▸ hr⟩
        · exact ⟨Or.inr hm, hk⟩
      · rintro ⟨hm | hm, hk⟩
        · exact Or.inl hm
        · exact Or.inr ⟨hm, hk⟩

/-- Prepending a reserved-key entry leaves the rest-spread unchanged. -/
theorem restProps_cons_reserved (k : String) (v : Value) (bag : PropBag)
    (h : k ∈ reservedKeys) : restProps ((k, v) :: bag) = restProps bag := by
  simp [restProps, h]

/-- In a filtered fragment list that ends with a non-empty fragment, that
fragment is the last survivor. -/
theorem getLast_filter_concat (l : List String) (c : String) (hc : c ≠ "") :
    ((l ++ [c]).filter (fun s => s != "")).getLast? = some c := by
  rw [List.filter_append]
  have hb : (c != "") = true := bne_iff_ne.mpr hc
  have hone : [c].filter (fun s => s != "") = [c] := by
    simp [List.filter, hb]
  rw [hone, List.getLast?_concat]

/-- JavaScript `x || y || "div"` satisfies the spec-side first-truthy
precedence contract. -/
theorem jsOr_precedence (a b : Value) :
    targetPrecedence a b (jsOr (jsOr a b) (.vstr "div")) := by
  unfold targetPrecedence jsOr
  by_cases ha : truthy a = true
  · simp [ha]
  · have ha' : truthy a = false := by simpa using ha
    by_cases hb : truthy b = true
    · simp [ha', hb]
    · have hb' : truthy b = false := by simpa using hb
      simp [ha', hb']

/-! ### Claims -/

/-- C1: For every render request, the output class string is the
conditional join (falsy/empty fragments dropped, single-space separated)
of exactly four fragments in the fixed order base class, dynamic class,
variant class, caller-supplied `className`; consequently the explicit
`className`, whenever it survives, is the last surviving fragment.
Stated for both implementations.  The hypotheses restrict the `className`
prop and the resolved base to the values their declared types admit (a
string, or undefined when absent), the domain on which the `clsx`
embedding is exact. -/
theorem claim1_composition (config1 : Config1) (base : BaseSource)
    (config2 : Config2) (bag : PropBag)
    (hcn : isStrOrUndef (getProp bag "className") = true)
    (hb2 : isStrOrUndef (resolveBase base (restProps bag)) = true) :
    (composedClass1 config1 bag =
        condJoin [ baseFragment1 config1 bag,
                   dynamicClass1 config1 bag,
                   variantClass1 config1.variants (getProp bag "variant"),
                   strOf (getProp bag "className") ]
      ∧ (strOf (getProp bag "className") ≠ "" →
          (([ baseFragment1 config1 bag,
              dynamicClass1 config1 bag,
              variantClass1 config1.variants (getProp bag "variant"),
              strOf (getProp bag "className") ]).filter (fun s => s != "")).getLast?
            = some (strOf (getProp bag "className"))))
    ∧ (composedClass2 base config2 bag =
        condJoin [ strOf (resolveBase base (restProps bag)),
                   dynamicClass2 config2 bag,
                   strOf (variantClass2 config2.variants (getProp bag "variant")),
                   strOf (getProp bag "className") ]
      ∧ (strOf (getProp bag "className") ≠ "" →
          (([ strOf (resolveBase base (restProps bag)),
              dynamicClass2 config2 bag,
              strOf (variantClass2 config2.variants (getProp bag "variant")),
              strOf (getProp bag "className") ]).filter (fun s => s != "")).getLast?
            = some (strOf (getProp bag "className")))) := by
  refine ⟨⟨?_, ?_⟩, ?_, ?_⟩
  · unfold composedClass1
    rw [clsx_eq_condJoin]
    rfl
  · intro hne
    exact getLast_filter_concat [_, _, _] _ hne
  · unfold composedClass2
    rw [clsx_eq_condJoin]
    rfl
  · intro hne
    exact getLast_filter_concat [_, _, _] _ hne

/-- Witness for `claim1_composition`: the spec's own override example,
`create("p-4")` rendered with `className="m-2"`, composes to `"p-4 m-2"`
with the caller's `className` last. -/
theorem claim1_composition_witness :
    composedClass1 ⟨.val (.vstr "p-4"), .vundef, none, none⟩
        [("className", .vstr "m-2")] = "p-4 m-2" :=
  ((claim1_composition ⟨.val (.vstr "p-4"), .vundef, none, none⟩
      (.val (.vstr "p-4")) ⟨.vundef, none, none⟩ [("className", .vstr "m-2")]
      (by decide) (by decide)).1.1).trans (by decide)

/-- C2: For every render request, the instantiated target is chosen by
first precedence among the call-site `as` prop, the config's `as` field
and the default tag `"div"`, and exactly one of the three is selected.
Implementation 2 satisfies this unconditionally; implementation 1 under
the hypothesis that its `baseClass` resolves to a string or undefined —
the values its declared type `string | ((props: P) => string)` admits
(off that contract the resolved base itself becomes the target, see
claim 10). -/
theorem claim2_target (config1 : Config1) (config2 : Config2) (bag : PropBag)
    (h1 : isStrOrUndef (baseClassResolved1 config1 bag) = true) :
    targetPrecedence (getProp bag "as") config1.asField (target1 config1 bag)
    ∧ targetPrecedence (getProp bag "as") config2.asField (target2 config2 bag) := by
  constructor
  · unfold target1
    cases hb : baseClassResolved1 config1 bag with
    | vstr s => exact jsOr_precedence _ _
    | vundef => exact jsOr_precedence _ _
    | vobj i => rw [hb] at h1; simp [isStrOrUndef] at h1
    | vfun i => rw [hb] at h1; simp [isStrOrUndef] at h1
  · exact jsOr_precedence _ _

/-- Witness for `claim2_target`: a call-site `as="button"` wins over a
configured `as: "span"`. -/
theorem claim2_target_witness :
    targetPrecedence (.vstr "button") (.vstr "span")
      (target1 ⟨.val (.vstr "x"), .vstr "span", none, none⟩
        [("as", .vstr "button")]) :=
  (claim2_target ⟨.val (.vstr "x"), .vstr "span", none, none⟩
    ⟨.vstr "span", none, none⟩ [("as", .vstr "button")] (by decide)).1

/-- Decides that a `variants` configuration has no entry under the key
`k` (trivially so when no map is configured). -/
def noKey (variants : Option (List (String × String))) (k : String) : Bool :=
  match variants with
  | none => true
  | some m => (recordLookup m k).isNone

theorem recordLookup_of_noKey (variants : Option (List (String × String)))
    (k : String) (m : List (String × String))
    (h : noKey variants k = true) (hm : variants = some m) :
    recordLookup m k = none := by
  subst hm
  simpa [noKey, Option.isNone_iff_eq_none] using h

/-- A `clsx` application is unchanged when its third argument is replaced
by another argument that also contributes nothing. -/
theorem clsx_congr_third (a b c c' d : Value)
    (hc : clsxArg c = none) (hc' : clsxArg c' = none) :
    clsx [a, b, c, d] = clsx [a, b, c', d] := by
  simp [clsx, List.filterMap_cons, hc, hc']

/-- A configuration of implementation 1 whose `variants` map carries an
entry under the key literally named `"undefined"`. -/
def undefKeyConfig : Config1 :=
  ⟨.val (.vstr "base"), .vundef, some [("undefined", "X")], none⟩

/-- Counterexample to C3 as stated: under implementation 1 with
`variants: { undefined: "X" }`, requesting the unknown variant
`"missing"` yields `"base"`, while omitting `variant` yields `"base X"` —
the omitted request reads the `"undefined"` entry through
`config.variants?.[variant!]`, because the JavaScript property key of
`undefined` is the string `"undefined"`.  So an unknown-variant request
and a variant-omitted request do not always compose the same string. -/
theorem claim3_counterexample :
    composedClass1 undefKeyConfig [("variant", .vstr "missing")]
      ≠ composedClass1 undefKeyConfig [] := by
  decide

/-- C3 (amended): for every render request whose requested `variant` is
not a key of the configured `variants` (or with no `variants` configured),
the rendered result — target, forwarded props, class string and children —
equals that of the same request with `variant` omitted, and (the
embedding being total) no error is raised; unconditionally so for
implementation 2, and for implementation 1 provided the `variants` map
has no entry under the key literally named `"undefined"`. -/
theorem claim3_amended (config1 : Config1) (base : BaseSource)
    (config2 : Config2) (bag : PropBag) (v : String)
    (hbag : getProp bag "variant" = .vundef)
    (hv1 : noKey config1.variants v = true)
    (hu1 : noKey config1.variants "undefined" = true)
    (hv2 : noKey config2.variants v = true) :
    render1 config1 (("variant", .vstr v) :: bag) = render1 config1 bag
    ∧ render2 base config2 (("variant", .vstr v) :: bag) = render2 base config2 bag := by
  have hmem : "variant" ∈ reservedKeys := by decide
  have hrest : restProps (("variant", .vstr v) :: bag) = restProps bag :=
    restProps_cons_reserved _ _ _ hmem
  have hcn : getProp (("variant", .vstr v) :: bag) "className" = getProp bag "className" :=
    getProp_cons_ne _ _ _ _ (by decide)
  have has : getProp (("variant", .vstr v) :: bag) "as" = getProp bag "as" :=
    getProp_cons_ne _ _ _ _ (by decide)
  have hch : getProp (("variant", .vstr v) :: bag) "children" = getProp bag "children" :=
    getProp_cons_ne _ _ _ _ (by decide)
  have hvv : getProp (("variant", .vstr v) :: bag) "variant" = .vstr v := by
    simp [getProp]
  have hvc1 : variantClass1 config1.variants (.vstr v) = "" := by
    cases hcfg : config1.variants with
    | none => rfl
    | some m => simp [variantClass1, toPropKey, recordLookup_of_noKey _ _ _ hv1 hcfg]
  have hvc1' : variantClass1 config1.variants (getProp bag "variant") = "" := by
    rw [hbag]
    cases hcfg : config1.variants with
    | none => rfl
    | some m => simp [variantClass1, toPropKey, recordLookup_of_noKey _ _ _ hu1 hcfg]
  have hb1 : baseClassResolved1 config1 (("variant", .vstr v) :: bag)
      = baseClassResolved1 config1 bag := by
    unfold baseClassResolved1; rw [hrest]
  have hd1 : dynamicClass1 config1 (("variant", .vstr v) :: bag)
      = dynamicClass1 config1 bag := by
    unfold dynamicClass1; rw [hrest]
  constructor
  · unfold render1 composedClass1 baseFragment1 target1
    rw [hrest, hb1, hd1, hvv, hcn, has, hch, hvc1, hvc1']
  · have hvc2 : clsxArg (variantClass2 config2.variants (.vstr v)) = none := by
      by_cases hv : v = ""
      · subst hv
        simp [variantClass2, truthy, clsxArg]
      · have htv : truthy (.vstr v) = true := by simp [truthy, hv]
        cases hcfg : config2.variants with
        | none => simp [variantClass2, htv, clsxArg]
        | some m =>
          simp [variantClass2, htv, toPropKey,
                recordLookup_of_noKey _ _ _ hv2 hcfg, clsxArg]
    have hvc2' : clsxArg (variantClass2 config2.variants Value.vundef) = none := by
      simp [variantClass2, truthy, clsxArg]
    have hcomp : composedClass2 base config2 (("variant", .vstr v) :: bag)
        = composedClass2 base config2 bag := by
      unfold composedClass2 dynamicClass2
      rw [hrest, hvv, hcn, hbag]
      exact clsx_congr_third _ _ _ _ _ hvc2 hvc2'
    unfold render2 target2
    rw [hrest, has, hch, hcomp]

/-- Witness for `claim3_amended`: with `variants: { primary: "p" }`, the
unknown variant `"secondary"` renders exactly as the variant-omitted
request, in both implementations. -/
theorem claim3_amended_witness :
    render1 ⟨.val (.vstr "text-base"), .vundef, some [("primary", "p")], none⟩
        [("variant", .vstr "secondary"), ("id", .vstr "z")]
      = render1 ⟨.val (.vstr "text-base"), .vundef, some [("primary", "p")], none⟩
        [("id", .vstr "z")]
    ∧ render2 (.val (.vstr "text-base")) ⟨.vundef, some [("primary", "p")], none⟩
        [("variant", .vstr "secondary"), ("id", .vstr "z")]
      = render2 (.val (.vstr "text-base")) ⟨.vundef, some [("primary", "p")], none⟩
        [("id", .vstr "z")] :=
  claim3_amended ⟨.val (.vstr "text-base"), .vundef, some [("primary", "p")], none⟩
    (.val (.vstr "text-base")) ⟨.vundef, some [("primary", "p")], none⟩
    [("id", .vstr "z")] "secondary" (by decide) (by decide) (by decide) (by decide)

/-- Counterexample to C4 as stated: under implementation 1 with
`variants: { undefined: "X" }` and `variant` omitted entirely, the output
class string is `"base X"` — it contains the variant-mapped fragment
`"X"`, which `variants` maps under the key `"undefined"`. -/
theorem claim4_counterexample :
    composedClass1 undefKeyConfig [] = "base X"
    ∧ composedClass1 ⟨.val (.vstr "base"), .vundef, none, none⟩ [] = "base"
    ∧ recordLookup [("undefined", "X")] "undefined" = some "X" := by
  decide

/-- C4 (amended): for every render request with the `variant` prop absent
(or explicitly undefined), the output class string contains no
variant-mapped fragment — it equals the output of the same request under
the same configuration with no `variants` map at all; unconditionally so
for implementation 2, and for implementation 1 provided the `variants`
map has no entry under the key literally named `"undefined"`. -/
theorem claim4_amended (config1 : Config1) (base : BaseSource)
    (config2 : Config2) (bag : PropBag)
    (hbag : getProp bag "variant" = .vundef)
    (hu1 : noKey config1.variants "undefined" = true) :
    composedClass1 config1 bag
      = composedClass1 { config1 with variants := none } bag
    ∧ composedClass2 base config2 bag
      = composedClass2 base { config2 with variants := none } bag := by
  constructor
  · have hvz : variantClass1 config1.variants (getProp bag "variant") = "" := by
      rw [hbag]
      cases hcfg : config1.variants with
      | none => rfl
      | some m => simp [variantClass1, toPropKey, recordLookup_of_noKey _ _ _ hu1 hcfg]
    unfold composedClass1 baseFragment1
    rw [hvz]
    rfl
  · unfold composedClass2 dynamicClass2
    rw [hbag]
    rfl

/-- Witness for `claim4_amended`: a configured `variants` map contributes
nothing when `variant` is omitted. -/
theorem claim4_amended_witness :
    composedClass1 ⟨.val (.vstr "text-base"), .vundef, some [("primary", "p")], none⟩
        [("id", .vstr "z")]
      = composedClass1 ⟨.val (.vstr "text-base"), .vundef, none, none⟩
        [("id", .vstr "z")]
    ∧ composedClass2 (.val (.vstr "text-base")) ⟨.vundef, some [("primary", "p")], none⟩
        [("id", .vstr "z")]
      = composedClass2 (.val (.vstr "text-base")) ⟨.vundef, none, none⟩
        [("id", .vstr "z")] :=
  claim4_amended ⟨.val (.vstr "text-base"), .vundef, some [("primary", "p")], none⟩
    (.val (.vstr "text-base")) ⟨.vundef, some [("primary", "p")], none⟩
    [("id", .vstr "z")] (by decide) (by decide)

/-- C5: for every render request, a function-valued `baseClass` is invoked
with exactly the request's non-reserved props — the request's prop object
minus `className`, `children`, `variant` and `as` — and its returned
string is used as the base fragment; a configured `styleFn` is invoked
with that same prop set and its return value is appended as the dynamic
fragment.  The prop set `a` handed to both functions is characterised
extensionally: it holds exactly the request's entries with non-reserved
keys, and looking up any non-reserved key in it agrees with the request.
Stated for both implementations. -/
theorem claim5_propArgument (f : PropBag → Value) (g : PropBag → String)
    (asV : Value) (variants : Option (List (String × String)))
    (asV2 : Value) (variants2 : Option (List (String × String)))
    (bag : PropBag) :
    ∃ a : PropBag,
      (∀ kv : String × Value, kv ∈ a ↔ (kv ∈ bag ∧ kv.1 ∉ reservedKeys))
      ∧ (∀ k, k ∉ reservedKeys → getProp a k = getProp bag k)
      ∧ baseClassResolved1 ⟨.func f, asV, variants, some g⟩ bag = f a
      ∧ dynamicClass1 ⟨.func f, asV, variants, some g⟩ bag = g a
      ∧ composedClass1 ⟨.func f, asV, variants, some g⟩ bag =
          clsx [ .vstr (strOf (f a)), .vstr (g a),
                 .vstr (variantClass1 variants (getProp bag "variant")),
                 getProp bag "className" ]
      ∧ dynamicClass2 ⟨asV2, variants2, some g⟩ bag = g a
      ∧ composedClass2 (.func f) ⟨asV2, variants2, some g⟩ bag =
          clsx [ f a, .vstr (g a),
                 variantClass2 variants2 (getProp bag "variant"),
                 getProp bag "className" ] :=
  ⟨restProps bag, mem_restProps bag,
    fun k hk => getProp_restProps bag k hk, rfl, rfl, rfl, rfl, rfl⟩

/-- Witness for `claim5_propArgument` at the spec's dynamic-class example:
`baseClass` and `styleFn` reading an `isActive` prop, rendered with
`isActive` set and reserved props present. -/
theorem claim5_propArgument_witness :
    ∃ a : PropBag,
      (∀ kv : String × Value,
        kv ∈ a ↔ (kv ∈ [("className", Value.vstr "m-2"), ("isActive", Value.vstr "yes")]
                  ∧ kv.1 ∉ reservedKeys))
      ∧ (∀ k, k ∉ reservedKeys →
          getProp a k
            = getProp [("className", Value.vstr "m-2"), ("isActive", Value.vstr "yes")] k)
      ∧ baseClassResolved1
          ⟨.func (fun p => .vstr (strOf (getProp p "isActive"))), .vundef, none,
           some (fun p => if truthy (getProp p "isActive") then "bg-green-500" else "bg-red-500")⟩
          [("className", Value.vstr "m-2"), ("isActive", Value.vstr "yes")]
          = (fun p => Value.vstr (strOf (getProp p "isActive"))) a
      ∧ dynamicClass1
          ⟨.func (fun p => .vstr (strOf (getProp p "isActive"))), .vundef, none,
           some (fun p => if truthy (getProp p "isActive") then "bg-green-500" else "bg-red-500")⟩
          [("className", Value.vstr "m-2"), ("isActive", Value.vstr "yes")]
          = (fun p => if truthy (getProp p "isActive") then "bg-green-500" else "bg-red-500") a
      ∧ composedClass1
          ⟨.func (fun p => .vstr (strOf (getProp p "isActive"))), .vundef, none,
           some (fun p => if truthy (getProp p "isActive") then "bg-green-500" else "bg-red-500")⟩
          [("className", Value.vstr "m-2"), ("isActive", Value.vstr "yes")]
          = clsx [ .vstr (strOf ((fun p => Value.vstr (strOf (getProp p "isActive"))) a)),
                   .vstr ((fun p => if truthy (getProp p "isActive") then "bg-green-500" else "bg-red-500") a),
                   .vstr (variantClass1 none
                     (getProp [("className", Value.vstr "m-2"), ("isActive", Value.vstr "yes")] "variant")),
                   getProp [("className", Value.vstr "m-2"), ("isActive", Value.vstr "yes")] "className" ]
      ∧ dynamicClass2 ⟨.vstr "section", none,
           some (fun p => if truthy (getProp p "isActive") then "bg-green-500" else "bg-red-500")⟩
          [("className", Value.vstr "m-2"), ("isActive", Value.vstr "yes")]
          = (fun p => if truthy (getProp p "isActive") then "bg-green-500" else "bg-red-500") a
      ∧ composedClass2 (.func (fun p => .vstr (strOf (getProp p "isActive"))))
          ⟨.vstr "section", none,
           some (fun p => if truthy (getProp p "isActive") then "bg-green-500" else "bg-red-500")⟩
          [("className", Value.vstr "m-2"), ("isActive", Value.vstr "yes")]
          = clsx [ (fun p => Value.vstr (strOf (getProp p "isActive"))) a,
                   .vstr ((fun p => if truthy (getProp p "isActive") then "bg-green-500" else "bg-red-500") a),
                   variantClass2 none
                     (getProp [("className", Value.vstr "m-2"), ("isActive", Value.vstr "yes")] "variant"),
                   getProp [("className", Value.vstr "m-2"), ("isActive", Value.vstr "yes")] "className" ] :=
  claim5_propArgument (fun p => .vstr (strOf (getProp p "isActive")))
    (fun p => if truthy (getProp p "isActive") then "bg-green-500" else "bg-red-500")
    .vundef none (.vstr "section") none
    [("className", Value.vstr "m-2"), ("isActive", Value.vstr "yes")]

/-- C6: for every tag in the fixed enumeration and every base class
source, the component built by the per-tag constructor renders — on every
request — the same target, the same class string and the same forwarded
props as the one built by the generic create entry point with `as` set to
that tag.  Stated for both implementations. -/
theorem claim6_perTag_eq_create (tag : String) (htag : tag ∈ htmlTags)
    (base : BaseSource) (bag : PropBag) :
    perTag1 tag base bag = create1 ⟨base, .vstr tag, none, none⟩ bag
    ∧ perTag2 tag base bag = create2 base ⟨.vstr tag, none, none⟩ bag :=
  ⟨rfl, rfl⟩

/-- Witness for `claim6_perTag_eq_create` at the tag `"button"`. -/
theorem claim6_perTag_eq_create_witness :
    perTag1 "button" (.val (.vstr "px-2")) [("className", .vstr "m-1")]
      = create1 ⟨.val (.vstr "px-2"), .vstr "button", none, none⟩
          [("className", .vstr "m-1")]
    ∧ perTag2 "button" (.val (.vstr "px-2")) [("className", .vstr "m-1")]
      = create2 (.val (.vstr "px-2")) ⟨.vstr "button", none, none⟩
          [("className", .vstr "m-1")] :=
  claim6_perTag_eq_create "button" (by decide) (.val (.vstr "px-2"))
    [("className", .vstr "m-1")]

/-- The `variants` map of the repository README's per-tag example
(`Styled.span("text-base", { variants: ... })`). -/
def readmeVariants : List (String × String) :=
  [("primary", "text-blue-500"), ("secondary", "text-gray-500")]

/-- C7 evaluated at its failing input: a config passed as the second
argument of a per-tag constructor is silently discarded — the per-tag
lambdas of both implementations bind only `baseClass` —, so the README's
`Styled.span("text-base", { variants: { primary: "text-blue-500", ... } })`
rendered with `variant="primary"` composes only `"text-base"`, while the
generic create entry point given the same config together with
`as: "span"` composes `"text-base text-blue-500"`.  The claim (and the
README) say the two agree; they do not. -/
theorem claim7_config_discarded :
    composedOf (perTag2WithConfig "span" (.val (.vstr "text-base"))
        ⟨.vundef, some readmeVariants, none⟩ [("variant", .vstr "primary")])
      = "text-base"
    ∧ composedOf (create2 (.val (.vstr "text-base"))
        ⟨.vstr "span", some readmeVariants, none⟩ [("variant", .vstr "primary")])
      = "text-base text-blue-500"
    ∧ composedOf (perTag1WithConfig "span" (.val (.vstr "text-base"))
        ⟨.vundef, some readmeVariants, none⟩ [("variant", .vstr "primary")])
      = "text-base"
    ∧ composedOf (create1 ⟨.val (.vstr "text-base"), .vstr "span", some readmeVariants, none⟩
        [("variant", .vstr "primary")])
      = "text-base text-blue-500" := by
  decide

/-- C8: rendering is deterministic and shares no state across renders.
The render evaluation relations spell out every step of one render and
read nothing but the creation-time configuration and the call's props;
the purity of the configured `baseClass` and `styleFn` functions is
intrinsic to the embedding (they are Lean functions).  Each relation
admits at most one rendered result per input, so two invocations on
identical inputs yield identical output class strings — and identical
targets and forwarded props.  Stated for both implementations. -/
theorem claim8_deterministic (config1 : Config1) (base : BaseSource)
    (config2 : Config2) (bag : PropBag) (r r' : Rendered) :
    (Render1Rel config1 bag r → Render1Rel config1 bag r' → r = r')
    ∧ (Render2Rel base config2 bag r → Render2Rel base config2 bag r' → r = r') := by
  constructor
  · intro h h'
    cases h with
    | steps p bV d vc cb t hp hb hd hv hc ht =>
      cases h' with
      | steps p' bV' d' vc' cb' t' hp' hb' hd' hv' hc' ht' =>
        subst_vars
        rfl
  · intro h h'
    cases h with
    | steps p bV d vc cb t hp hb hd hv hc ht =>
      cases h' with
      | steps p' bV' d' vc' cb' t' hp' hb' hd' hv' hc' ht' =>
        subst_vars
        rfl

/-- Witness for `claim8_deterministic`: two evaluations of the same
concrete request resolve to the same result. -/
theorem claim8_deterministic_witness :
    render1 ⟨.val (.vstr "a"), .vundef, none, none⟩ [("className", .vstr "b")]
      = render1 ⟨.val (.vstr "a"), .vundef, none, none⟩ [("className", .vstr "b")] :=
  (claim8_deterministic ⟨.val (.vstr "a"), .vundef, none, none⟩
      (.val (.vstr "a")) ⟨.vundef, none, none⟩ [("className", .vstr "b")] _ _).1
    (render1Rel_total _ _) (render1Rel_total _ _)

/-- Looking up keys in the props object handed to the target:
`{ className: comb, ...restProps bag }` yields `comb` under `"className"`,
agrees with the request on every non-reserved key, and holds nothing
under `"variant"`, `"as"` or `"children"`. -/
theorem forwarding_props (comb : String) (bag : PropBag) :
    getProp (("className", Value.vstr comb) :: restProps bag) "className"
      = .vstr comb
    ∧ (∀ k, k ∉ reservedKeys →
        getProp (("className", Value.vstr comb) :: restProps bag) k = getProp bag k)
    ∧ getProp (("className", Value.vstr comb) :: restProps bag) "variant" = .vundef
    ∧ getProp (("className", Value.vstr comb) :: restProps bag) "as" = .vundef
    ∧ getProp (("className", Value.vstr comb) :: restProps bag) "children" = .vundef := by
  refine ⟨by simp [getProp], ?_, ?_, ?_, ?_⟩
  · intro k hk
    have hne : "className" ≠ k :=
      fun he => hk (he ▸ (by decide : "className" ∈ reservedKeys))
    rw [getProp_cons_ne _ _ _ _ hne, getProp_restProps _ _ hk]
  · rw [getProp_cons_ne _ _ _ _ (by decide),
        getProp_restProps_reserved _ _ (by decide)]
  · rw [getProp_cons_ne _ _ _ _ (by decide),
        getProp_restProps_reserved _ _ (by decide)]
  · rw [getProp_cons_ne _ _ _ _ (by decide),
        getProp_restProps_reserved _ _ (by decide)]

/-- C9: for every render request, the target is instantiated with the
composed class string plus all non-reserved props passed through
unchanged; the reserved styling props `className`, `variant` and `as` are
not forwarded (the target's `className` is the composed string, and
`variant`/`as` read as undefined on the forwarded props), and `children`
is not among the forwarded props but is passed through as the children
argument.  Stated for both implementations. -/
theorem claim9_forwarding (config1 : Config1) (base : BaseSource)
    (config2 : Config2) (bag : PropBag) :
    (getProp (render1 config1 bag).targetProps "className"
        = .vstr (composedClass1 config1 bag)
      ∧ (∀ k, k ∉ reservedKeys →
          getProp (render1 config1 bag).targetProps k = getProp bag k)
      ∧ getProp (render1 config1 bag).targetProps "variant" = .vundef
      ∧ getProp (render1 config1 bag).targetProps "as" = .vundef
      ∧ getProp (render1 config1 bag).targetProps "children" = .vundef
      ∧ (render1 config1 bag).childrenArg = getProp bag "children")
    ∧ (getProp (render2 base config2 bag).targetProps "className"
        = .vstr (composedClass2 base config2 bag)
      ∧ (∀ k, k ∉ reservedKeys →
          getProp (render2 base config2 bag).targetProps k = getProp bag k)
      ∧ getProp (render2 base config2 bag).targetProps "variant" = .vundef
      ∧ getProp (render2 base config2 bag).targetProps "as" = .vundef
      ∧ getProp (render2 base config2 bag).targetProps "children" = .vundef
      ∧ (render2 base config2 bag).childrenArg = getProp bag "children") := by
  constructor
  · obtain ⟨h1, h2, h3, h4, h5⟩ := forwarding_props (composedClass1 config1 bag) bag
    exact ⟨h1, h2, h3, h4, h5, rfl⟩
  · obtain ⟨h1, h2, h3, h4, h5⟩ := forwarding_props (composedClass2 base config2 bag) bag
    exact ⟨h1, h2, h3, h4, h5, rfl⟩

/-- Witness for `claim9_forwarding`: a non-reserved `id` prop passes
through unchanged and the `variant` prop does not reach the target. -/
theorem claim9_forwarding_witness :
    getProp (render1 ⟨.val (.vstr "a"), .vundef, none, none⟩
        [("variant", .vstr "primary"), ("id", .vstr "z")]).targetProps "id"
      = getProp [("variant", .vstr "primary"), ("id", .vstr "z")] "id"
    ∧ getProp (render1 ⟨.val (.vstr "a"), .vundef, none, none⟩
        [("variant", .vstr "primary"), ("id", .vstr "z")]).targetProps "variant"
      = .vundef :=
  ⟨(claim9_forwarding ⟨.val (.vstr "a"), .vundef, none, none⟩ (.val (.vstr "a"))
      ⟨.vundef, none, none⟩ [("variant", .vstr "primary"), ("id", .vstr "z")]).1.2.1
      "id" (by decide),
   (claim9_forwarding ⟨.val (.vstr "a"), .vundef, none, none⟩ (.val (.vstr "a"))
      ⟨.vundef, none, none⟩ [("variant", .vstr "primary"), ("id", .vstr "z")]).1.2.2.1⟩

/-- Decides that a value is a function or an object value. -/
def isFunOrObj : Value → Bool
  | .vfun _ => true
  | .vobj _ => true
  | _ => false

theorem condJoin_empty_head (l : List String) :
    condJoin ("" :: l) = condJoin l := by
  simp [condJoin, List.filter_cons]

/-- C10: in implementation 1, whenever the per-render resolved value of
`config.baseClass` is a function or an object value, that value itself is
the instantiated render target — regardless of the call-site `as` prop
and of the config's `as` field, over which the statement is universally
quantified — and the base fragment is `""`, so the composed class string
is the conditional join of only the dynamic, variant and `className`
fragments. -/
theorem claim10_baseOverride (config : Config1) (bag : PropBag)
    (h : isFunOrObj (baseClassResolved1 config bag) = true)
    (hcn : isStrOrUndef (getProp bag "className") = true) :
    (render1 config bag).target = baseClassResolved1 config bag
    ∧ baseFragment1 config bag = ""
    ∧ composedClass1 config bag =
        condJoin [ dynamicClass1 config bag,
                   variantClass1 config.variants (getProp bag "variant"),
                   strOf (getProp bag "className") ] := by
  have htgt : (render1 config bag).target = baseClassResolved1 config bag := by
    show target1 config bag = _
    unfold target1
    cases hb : baseClassResolved1 config bag with
    | vfun i => rfl
    | vobj i => rfl
    | vstr s => rw [hb] at h; simp [isFunOrObj] at h
    | vundef => rw [hb] at h; simp [isFunOrObj] at h
  have hbf : baseFragment1 config bag = "" := by
    unfold baseFragment1
    cases hb : baseClassResolved1 config bag with
    | vfun i => rfl
    | vobj i => rfl
    | vstr s => rw [hb] at h; simp [isFunOrObj] at h
    | vundef => rw [hb] at h; simp [isFunOrObj] at h
  refine ⟨htgt, hbf, ?_⟩
  unfold composedClass1
  rw [hbf, clsx_eq_condJoin]
  simp only [List.map_cons, List.map_nil]
  show condJoin ("" :: _) = _
  exact condJoin_empty_head _

/-- Witness for `claim10_baseOverride`: a `baseClass` function returning a
component (object) value makes that value the target, over a call-site
`as="button"` and a configured `as: "span"`. -/
theorem claim10_baseOverride_witness :
    (render1 ⟨.func (fun _ => .vobj 7), .vstr "span", none, none⟩
        [("as", .vstr "button"), ("className", .vstr "m-2")]).target
      = baseClassResolved1 ⟨.func (fun _ => .vobj 7), .vstr "span", none, none⟩
          [("as", .vstr "button"), ("className", .vstr "m-2")] :=
  (claim10_baseOverride ⟨.func (fun _ => .vobj 7), .vstr "span", none, none⟩
    [("as", .vstr "button"), ("className", .vstr "m-2")]
    (by decide) (by decide)).1

end StyledTW
